import Mathlib

/-!
Verification of the neopixel indicator program (`neoindicator.py`).

The program drives a 60-pixel RGBW strip split into a Left segment
(absolute indices 0–29, traversed ascending) and a Right segment
(absolute indices 30–59, traversed descending).  It renders one of
several displays (speed blob, rainbow, hum, battery gauge, on/off)
selected by commands received over a socket.

Python floats are embedded as exact rationals (`ℚ`); machine integers as
`ℤ`/`ℕ`; fallible operations (dict lookup, list indexing, division,
undefined names) return `Except PyErr`.
-/

/-- Runtime errors the Python code can raise in the modelled fragment. -/
inductive PyErr where
  | keyError
  | indexError
  | zeroDivisionError
  | nameError
  deriving DecidableEq, Repr

instance {ε α : Type} [DecidableEq ε] [DecidableEq α] : DecidableEq (Except ε α) := fun a b =>
  match a, b with
  | .ok x, .ok y => if h : x = y then .isTrue (by rw [h]) else .isFalse (by simp [h])
  | .error e, .error f => if h : e = f then .isTrue (by rw [h]) else .isFalse (by simp [h])
  | .ok _, .error _ => .isFalse (by simp)
  | .error _, .ok _ => .isFalse (by simp)

/-- Python `int(q)`: truncation of a float toward zero. -/
def pyTrunc (q : ℚ) : ℤ := q.num.tdiv q.den

/-- Python `x % L` for floats with `L > 0`: result in `[0, L)` (floored modulo). -/
def pymod (x L : ℚ) : ℚ := x - L * ⌊x / L⌋

/-- An RGBW quad.  Channels are rationals because `hum_start` stores raw
float intensities in the pixel buffer; all other writes store integers. -/
abbrev RGBW := ℚ × ℚ × ℚ × ℚ

-- Configuration constants of neoindicator.py (lines 35-55)
def NUMPIXELS : ℤ := 60
def BRIGHTNESS : ℚ := 75
def INTERVAL : ℚ := 1/50      -- 0.02 s animation tick
def START_LEFT : ℤ := 0
def END_LEFT : ℤ := 29
def START_RIGHT : ℤ := 30
def END_RIGHT : ℤ := 59
def DISTANCE_PIXEL : ℚ := 1/40  -- 0.025 m between pixels
def BLOBWIDTH : ℤ := 6
def MAXSPEED : ℚ := 15
def HUMINTENFRAC : ℚ := 3/10
def HUMINTERVAL : ℚ := 3

-- Color constants (lines 68-72)
def WHT : RGBW := (255, 255, 255, 0)
def RED : RGBW := (255, 0, 0, 0)
def GRN : RGBW := (0, 255, 0, 0)
def BLU : RGBW := (0, 0, 255, 0)
def BLK : RGBW := (0, 0, 0, 0)

/-- `colorwheel` (lines 99-104): three-arc hue wheel, off outside [0,255]. -/
def colorwheel (pos : ℤ) : RGBW :=
  if pos < 0 ∨ pos > 255 then (0, 0, 0, 0)
  else if pos < 85 then (((255 - pos * 3 : ℤ) : ℚ), ((pos * 3 : ℤ) : ℚ), 0, 0)
  else if pos < 170 then
    let p := pos - 85
    (0, ((255 - p * 3 : ℤ) : ℚ), ((p * 3 : ℤ) : ℚ), 0)
  else
    let p := pos - 170
    (((p * 3 : ℤ) : ℚ), 0, ((255 - p * 3 : ℤ) : ℚ), 0)

/-- Modelled from the spec: the colorwheel contract of §4.1 / claim C2,
written from the spec's own formulas for comparison with `colorwheel`. -/
def specColorwheel (pos : ℤ) : RGBW :=
  if pos < 0 ∨ pos > 255 then (0, 0, 0, 0)
  else if 0 ≤ pos ∧ pos < 85 then ((255 - 3 * (pos : ℚ)), 3 * (pos : ℚ), 0, 0)
  else if 85 ≤ pos ∧ pos < 170 then (0, 255 - 3 * ((pos : ℚ) - 85), 3 * ((pos : ℚ) - 85), 0)
  else (3 * ((pos : ℚ) - 170), 0, 255 - 3 * ((pos : ℚ) - 170), 0)

/-- The pixel buffer: the strip's 60 RGBW quads in absolute index order. -/
abbrev Buffer := List RGBW

/-- The buffer at start-up (and after `clear`): all pixels black. -/
def initBuffer : Buffer := List.replicate 60 BLK

/-- The buffer after `white()` (line 161): all pixels white. -/
def whiteBuffer : Buffer := List.replicate 60 WHT

/-- Python `self.pixels[i] = c`: out-of-range assignment raises IndexError.
Negative-index wraparound is not modelled; every index computed by the
code fragments below is nonnegative for the inputs considered. -/
def setPixelE (buf : Buffer) (i : ℤ) (c : RGBW) : Except PyErr Buffer :=
  if 0 ≤ i ∧ i.toNat < buf.length then .ok (buf.set i.toNat c) else .error .indexError

/-- Python `range(a, b)` as a list of integers (empty when `b ≤ a`). -/
def pyRange (a b : ℤ) : List ℤ := (List.range (b - a).toNat).map (fun k : ℕ => a + (k : ℤ))

/-- Writing one color to every index of `range(a, b)` in order. -/
def setRangeE (buf : Buffer) (a b : ℤ) (c : RGBW) : Except PyErr Buffer :=
  (pyRange a b).foldlM (fun bf p => setPixelE bf p c) buf

/-- `NeoIndicator.battery` (lines 165-175): the static battery gauge.
Black outside the segments, then RED `[START_LEFT, END_GREEN_LEFT]`,
GRN `[END_GREEN_LEFT+1, END_LEFT]`, RED `[END_GREEN_RIGHT+1, END_RIGHT]`,
GRN `[START_RIGHT, END_GREEN_RIGHT]`, written in that order. -/
def battery (level_left level_right : ℚ) (buf : Buffer) : Except PyErr Buffer :=
  let END_GREEN_LEFT : ℤ := START_LEFT + pyTrunc (((END_LEFT - START_LEFT + 1 : ℤ) : ℚ) * level_left)
  let END_GREEN_RIGHT : ℤ := START_RIGHT + pyTrunc (((END_RIGHT - START_RIGHT + 1 : ℤ) : ℚ) * (1 - level_right))
  (setRangeE buf 0 START_LEFT BLK).bind fun b1 =>
  (setRangeE b1 (END_LEFT + 1) START_RIGHT BLK).bind fun b2 =>
  (setRangeE b2 (END_RIGHT + 1) NUMPIXELS BLK).bind fun b3 =>
  (setRangeE b3 START_LEFT (END_GREEN_LEFT + 1) RED).bind fun b4 =>
  (setRangeE b4 (END_GREEN_LEFT + 1) (END_LEFT + 1) GRN).bind fun b5 =>
  (setRangeE b5 (END_GREEN_RIGHT + 1) (END_RIGHT + 1) RED).bind fun b6 =>
  setRangeE b6 START_RIGHT (END_GREEN_RIGHT + 1) GRN

/-- Modelled from the spec: the battery rendering of §4.6 / claim C1.
For each segment of length 30, the first `floor(30·level)` pixels of the
segment's ordinal sequence (ascending from index 0 for Left, descending
from index 59 for Right, the Right using `1 - levelRight`) are green and
the remainder red; pixels outside both segments are black (here the two
segments cover the whole strip). -/
def specBatteryBuf (levelLeft levelRight : ℚ) : Buffer :=
  (List.range 60).map fun p =>
    if p ≤ 29 then
      if (p : ℤ) < ⌊(30 : ℚ) * levelLeft⌋ then GRN else RED
    else
      if (59 - p : ℤ) < ⌊(30 : ℚ) * (1 - levelRight)⌋ then GRN else RED

/-- Segment lengths (computed in `rainbow_start` line 178-179 and
`speed_start` lines 238-239). -/
def LEFT_LENGTH : ℤ := END_LEFT - START_LEFT + 1

/-- Length of the right segment. -/
def RIGHT_LENGTH : ℤ := END_RIGHT - START_RIGHT + 1

/-- The `NeoIndicator` instance fields: `intensity` is set by `__init__`
(line 149) and `brightness`; the remaining fields are created by
`speed_start`/`speed_update`.  Before `speed_start` runs they do not
exist in Python; they are initialised to zeros/black here. -/
structure NeoState where
  intensity : ℚ
  blob_location_left : ℚ
  blob_location_right : ℚ
  interval : ℚ
  blob_location_left_inc : ℚ
  blob_location_right_inc : ℚ
  color_left : RGBW
  color_right : RGBW
  deriving DecidableEq

/-- The `NeoIndicator` state right after `__init__` (intensity 75/100). -/
def initNeoState : NeoState :=
  { intensity := BRIGHTNESS / 100
    blob_location_left := 0
    blob_location_right := 0
    interval := 0
    blob_location_left_inc := 0
    blob_location_right_inc := 0
    color_left := BLK
    color_right := BLK }

/-- The tick-interval computation shared by `speed_start` (lines 234-235)
and `speed_update` (lines 224-225): `NUMPIXELS/2 * DISTANCE_PIXEL /
(|speed_left|+|speed_right|) / 2 / 10`, capped at `INTERVAL`.  Python
raises ZeroDivisionError when both speeds are zero. -/
def speedInterval (speed_left speed_right : ℚ) : Except PyErr ℚ :=
  if |speed_left| + |speed_right| = 0 then .error .zeroDivisionError
  else
    let i := (NUMPIXELS : ℚ) / 2 * DISTANCE_PIXEL / (|speed_left| + |speed_right|) / 2 / 10
    .ok (if i > INTERVAL then INTERVAL else i)

/-- `NeoIndicator.speed_update` (lines 223-229): recomputes interval,
both blob increments and both colors; touches nothing else. -/
def speed_update (st : NeoState) (speed_left speed_right : ℚ) : Except PyErr NeoState :=
  (speedInterval speed_left speed_right).bind fun i =>
  .ok { st with
        interval := i
        blob_location_left_inc := speed_left * i / DISTANCE_PIXEL
        blob_location_right_inc := -speed_right * i / DISTANCE_PIXEL
        color_left := colorwheel (pyTrunc (|speed_left| / MAXSPEED * 255))
        color_right := colorwheel (pyTrunc (|speed_right| / MAXSPEED * 255)) }

/-- The setup part of `NeoIndicator.speed_start` (lines 231-241): resets
both blob positions to the segment starts, then computes interval,
increments and colors exactly as `speed_update` does. -/
def speed_start_setup (st : NeoState) (speed_left speed_right : ℚ) : Except PyErr NeoState :=
  (speedInterval speed_left speed_right).bind fun i =>
  .ok { st with
        blob_location_left := (START_LEFT : ℚ)
        blob_location_right := (END_RIGHT : ℚ)
        interval := i
        blob_location_left_inc := speed_left * i / DISTANCE_PIXEL
        blob_location_right_inc := -speed_right * i / DISTANCE_PIXEL
        color_left := colorwheel (pyTrunc (|speed_left| / MAXSPEED * 255))
        color_right := colorwheel (pyTrunc (|speed_right| / MAXSPEED * 255)) }

/-- The blob position accumulator: each tick of the `speed_start` loop
executes `blob_location += blob_location_inc` (lines 246-247). -/
def blobLocAfter (init inc : ℚ) : ℕ → ℚ
  | 0 => init
  | n + 1 => blobLocAfter init inc n + inc

/-- The head pixel drawn for a blob position (lines 248-249):
`int(pos % segLen) + segStart`. -/
def blobHead (pos : ℚ) (segLen segStart : ℤ) : ℤ :=
  pyTrunc (pymod pos (segLen : ℚ)) + segStart

/-- The left segment's pixel indices in ascending order, as built by
`rainbow_start` (line 180), `hum_start` (line 199) and `speed_start`. -/
def left_list : List ℤ := pyRange START_LEFT (END_LEFT + 1)

/-- The right segment's pixel indices in descending order
(`list(range(END_RIGHT, START_RIGHT-1, -1))`, lines 181 and 200). -/
def right_list : List ℤ := (pyRange START_RIGHT (END_RIGHT + 1)).reverse

/-- Indices of both segments in traversal order, as written by the
`hum_start` loop (lines 214-217): ascending left then descending right. -/
def humIndexList : List ℤ := left_list ++ right_list

/-- Advancing the rainbow hue phase (lines 185-186): increment, resetting
to 0 above 255. -/
def rainbowStep (color : ℕ) : ℕ :=
  let c := color + 1
  if c > 255 then 0 else c

/-- The color written to a left-segment pixel on a rainbow tick (lines
187-189): `colorwheel(((pixel-START_LEFT)·256 // LEFT_LENGTH + c·5) & 255)`.
The ordinal `pixel - START_LEFT` is nonnegative for every pixel of
`left_list`, so the Python integer arithmetic is carried out in `ℕ`. -/
def rainbowPixelLeft (c : ℕ) (pixel : ℤ) : RGBW :=
  colorwheel ((((pixel - START_LEFT).toNat * 256 / LEFT_LENGTH.toNat + c * 5) &&& 255 : ℕ) : ℤ)

/-- The color written to a right-segment pixel (lines 190-192), using the
mirrored ordinal `END_RIGHT - pixel` (nonnegative on `right_list`). -/
def rainbowPixelRight (c : ℕ) (pixel : ℤ) : RGBW :=
  colorwheel ((((END_RIGHT - pixel).toNat * 256 / RIGHT_LENGTH.toNat + c * 5) &&& 255 : ℕ) : ℤ)

/-- One iteration of the `rainbow_start` loop body (lines 184-193):
advance the hue phase (`rainbowStep color` is the updated `color`
variable), then repaint the left and right segments with it. -/
def rainbowTick (color : ℕ) (buf : Buffer) : Except PyErr (ℕ × Buffer) :=
  (left_list.foldlM
    (fun bf p => setPixelE bf p (rainbowPixelLeft (rainbowStep color) p)) buf).bind fun b1 =>
  (right_list.foldlM
    (fun bf p => setPixelE bf p (rainbowPixelRight (rainbowStep color) p)) b1).bind fun b2 =>
  .ok (rainbowStep color, b2)

/-- The buffer rendered when `rainbow_start` observes its stop event and
exits its loop: `self.clear()` (line 196), all black. -/
def rainbowStopRender : Buffer := List.replicate 60 BLK

/-- Writing the raw float triple `(I, I, I, 0)` to every segment pixel
(lines 214-217). -/
def humFillE (I : ℚ) (buf : Buffer) : Except PyErr Buffer :=
  humIndexList.foldlM (fun bf p => setPixelE bf p (I, I, I, 0)) buf

/-- One iteration of the `hum_start` loop body (lines 206-219).
`selfIntensity` is `self.intensity`; `INTENSITY` is the loop-local
running intensity (initialised to `self.intensity`, line 204).  The
bounds and the increment `HUMINTENINC = (end-start)/20` are recomputed
every iteration (lines 207-209).  When the stepped intensity leaves the
band, the code executes `INTENSITYINC = -INTENSITYINC` (line 212), but no
variable named `INTENSITYINC` exists — the increment is `HUMINTENINC` —
so Python raises NameError; otherwise it renders the band. -/
def humTick (selfIntensity INTENSITY : ℚ) (buf : Buffer) : Except PyErr (ℚ × Buffer) :=
  let HUMINTENEND := selfIntensity
  let HUMINTENSTART := selfIntensity * (1 - HUMINTENFRAC)
  let HUMINTENINC := (HUMINTENEND - HUMINTENSTART) / 20
  let I := INTENSITY + HUMINTENINC
  if I > HUMINTENEND ∨ I < HUMINTENSTART then .error .nameError
  else (humFillE I buf).bind fun b => .ok (I, b)

/-- A decoded command (`neoData`, lines 116-133) as delivered by the ZMQ
worker.  The Python attribute `show` is spelled `show_` here because
`show` is a Lean keyword. -/
structure NeoData where
  show_ : ℕ
  speed_left : ℚ
  speed_right : ℚ
  battery_left : ℚ
  battery_right : ℚ
  intensity : ℚ
  deriving DecidableEq

/-- The `neoshow` display-code dictionary (line 114).  It has no
`rainbow_off`, `speed_off` or `hum_off` entries, although `main` looks
those keys up in its `elif` chain. -/
def neoshow : List (String × ℕ) :=
  [("speed", 1), ("battery", 2), ("rainbow", 3), ("stop", 4),
   ("off", 5), ("on", 6), ("hum", 7), ("brightness", 8)]

/-- Python `neoshow[k]`: KeyError when the key is absent. -/
def neoshowE (k : String) : Except PyErr ℕ :=
  match neoshow.lookup k with
  | some v => .ok v
  | none => .error .keyError

/-- The controller state of `main` (lines 405-533): whether each
animation task variable holds a task, the four stop events, the
`NeoIndicator` fields, the pixel buffer, and a count of logged rejection
messages. -/
structure MainState where
  speedTask : Bool
  rainbowTask : Bool
  humTask : Bool
  speedStopEvent : Bool
  rainbowStopEvent : Bool
  humStopEvent : Bool
  zmqStopEvent : Bool
  neo : NeoState
  buffer : Buffer
  log : ℕ
  deriving DecidableEq

/-- The controller state after start-up (lines 407-428): no tasks, all
events clear, buffer cleared by `neo.clear()`. -/
def initMain : MainState :=
  { speedTask := false, rainbowTask := false, humTask := false
    speedStopEvent := false, rainbowStopEvent := false, humStopEvent := false
    zmqStopEvent := false, neo := initNeoState, buffer := initBuffer, log := 0 }

/-- The guard `speed_task == None and rainbow_task == None and
hum_task == None` used by every start branch. -/
def noneActive (st : MainState) : Bool :=
  !st.speedTask && !st.rainbowTask && !st.humTask

/-- The Rainbow branch (lines 457-465): clear, clear the stop event and
create the task when nothing is active; otherwise log a rejection. -/
def rainbowBranch (st : MainState) : MainState :=
  if noneActive st then
    { st with buffer := initBuffer, rainbowStopEvent := false, rainbowTask := true }
  else { st with log := st.log + 1 }

/-- The `rainbow_off` branch (lines 467-469); unreachable in the shipped
code because `neoshow` lacks the key its guard looks up. -/
def rainbowOffBranch (st : MainState) : MainState :=
  { st with rainbowStopEvent := true, rainbowTask := false }

/-- The Brightness branch (lines 472-476). -/
def brightnessBranch (st : MainState) (c : NeoData) : MainState :=
  if c.intensity < 1 ∧ 0 ≤ c.intensity then
    { st with neo := { st.neo with intensity := c.intensity } }
  else { st with log := st.log + 1 }

/-- The Battery branch (lines 479-484). -/
def batteryBranch (st : MainState) (c : NeoData) : Except PyErr MainState :=
  if noneActive st then
    (battery c.battery_left c.battery_right st.buffer).bind fun b =>
    .ok { st with buffer := b }
  else .ok { st with log := st.log + 1 }

/-- The Speed branch (lines 487-495).  On start (line 491) the command's
speed fields are NOT forwarded: `speed_start` runs with its declared
defaults `speed_left=5.0, speed_right=-15.0` (line 231); the coroutine's
setup assignments (lines 232-241) are modeled as taking effect at task
creation.  Only the in-place update path (line 493) passes the commanded
speeds, to `speed_update`. -/
def speedBranch (st : MainState) (c : NeoData) : Except PyErr MainState :=
  if noneActive st then
    (speed_start_setup st.neo 5 (-15)).bind fun n =>
    .ok { st with speedStopEvent := false, speedTask := true, neo := n }
  else if st.speedTask && !st.rainbowTask && !st.humTask then
    (speed_update st.neo c.speed_left c.speed_right).bind fun n =>
    .ok { st with neo := n }
  else .ok { st with log := st.log + 1 }

/-- The `speed_off` branch (lines 497-499); unreachable like
`rainbow_off`. -/
def speedOffBranch (st : MainState) : MainState :=
  { st with speedStopEvent := true, speedTask := false }

/-- The Off branch (lines 502-507). -/
def offBranch (st : MainState) : MainState :=
  if noneActive st then { st with buffer := initBuffer }
  else { st with log := st.log + 1 }

/-- The On branch (lines 509-514). -/
def onBranch (st : MainState) : MainState :=
  if noneActive st then { st with buffer := whiteBuffer }
  else { st with log := st.log + 1 }

/-- The Hum branch (lines 517-522). -/
def humBranch (st : MainState) : MainState :=
  if noneActive st then { st with humStopEvent := false, humTask := true }
  else { st with log := st.log + 1 }

/-- The `hum_off` branch (lines 524-526); unreachable like the other
`*_off` branches. -/
def humOffBranch (st : MainState) : MainState :=
  { st with humStopEvent := true, humTask := false }

/-- The Stop branch (lines 529-533): set every stop event, clear the
buffer. -/
def stopBranch (st : MainState) : MainState :=
  { st with speedStopEvent := true, rainbowStopEvent := true, humStopEvent := true,
            zmqStopEvent := true, buffer := initBuffer }

/-- One pass of `main`'s dispatch over a received command (lines
457-533), with the `elif` chain's dictionary lookups evaluated in the
order Python evaluates them.  The second condition reads
`neoshow["rainbow_off"]` (line 467), a missing key, so every command
whose `show` is not `neoshow["rainbow"]` raises KeyError there and the
remaining branches are dead code. -/
def mainStep (st : MainState) (c : NeoData) : Except PyErr MainState :=
  (neoshowE "rainbow").bind fun kRainbow =>
  if c.show_ = kRainbow then .ok (rainbowBranch st) else
  (neoshowE "rainbow_off").bind fun kRainbowOff =>
  if c.show_ = kRainbowOff then .ok (rainbowOffBranch st) else
  (neoshowE "brightness").bind fun kBrightness =>
  if c.show_ = kBrightness then .ok (brightnessBranch st c) else
  (neoshowE "battery").bind fun kBattery =>
  if c.show_ = kBattery then batteryBranch st c else
  (neoshowE "speed").bind fun kSpeed =>
  if c.show_ = kSpeed then speedBranch st c else
  (neoshowE "speed_off").bind fun kSpeedOff =>
  if c.show_ = kSpeedOff then .ok (speedOffBranch st) else
  (neoshowE "off").bind fun kOff =>
  if c.show_ = kOff then .ok (offBranch st) else
  (neoshowE "on").bind fun kOn =>
  if c.show_ = kOn then .ok (onBranch st) else
  (neoshowE "hum").bind fun kHum =>
  if c.show_ = kHum then .ok (humBranch st) else
  (neoshowE "hum_off").bind fun kHumOff =>
  if c.show_ = kHumOff then .ok (humOffBranch st) else
  (neoshowE "stop").bind fun kStop =>
  if c.show_ = kStop then .ok (stopBranch st) else
  .ok st

/-- The ZMQ worker accepts commands only while its stop event is clear
(`while not stop_event.is_set()`, line 344). -/
def zmqAccepting (st : MainState) : Bool := !st.zmqStopEvent

/-- Cooperative wind-down once stop events are set: each existing
animation task observes its stop event at its next scheduling point —
after `main`'s own synchronous work — and performs its stop render:
`speed_start` and `rainbow_start` clear (lines 304 and 196), `hum_start`
paints full white (line 221).  At most one task exists in any reachable
state; Hum's render is applied last here. -/
def settleTasks (st : MainState) : MainState :=
  let st1 := if st.speedTask && st.speedStopEvent then { st with buffer := initBuffer } else st
  let st2 := if st1.rainbowTask && st1.rainbowStopEvent then { st1 with buffer := initBuffer } else st1
  if st2.humTask && st2.humStopEvent then { st2 with buffer := whiteBuffer } else st2

/-- Controller states reachable from start-up through dispatch passes
that do not raise. -/
inductive ReachableMain : MainState → Prop
  | init : ReachableMain initMain
  | step {s s' : MainState} {c : NeoData} :
      ReachableMain s → mainStep s c = Except.ok s' → ReachableMain s'

/-- At most one of the three animation tasks exists. -/
def atMostOneActive (st : MainState) : Bool :=
  !(st.speedTask && st.rainbowTask) && !(st.speedTask && st.humTask)
    && !(st.rainbowTask && st.humTask)

/-- A `NeoIndicator` state mid-Speed-animation, used as a test vector:
the blob positions 7 and 42 are away from their reset values. -/
def exampleNeo : NeoState :=
  { intensity := 1, blob_location_left := 7, blob_location_right := 42
    interval := 1, blob_location_left_inc := 1, blob_location_right_inc := 1
    color_left := RED, color_right := RED }

/-- A controller state with the Speed animation running. -/
def speedRunning : MainState := { initMain with speedTask := true, neo := exampleNeo }

/-- A controller state with the Rainbow animation running. -/
def rainbowRunning : MainState := { initMain with rainbowTask := true }

/-- A controller state with the Hum animation running. -/
def humRunning : MainState := { initMain with humTask := true }

/-- A Speed command with commanded speeds 99 and -42. -/
def cmdSpeed99 : NeoData :=
  { show_ := 1, speed_left := 99, speed_right := -42
    battery_left := 0, battery_right := 0, intensity := 0 }

/-- A Speed command with commanded speeds 123 and 7. -/
def cmdSpeed123 : NeoData :=
  { show_ := 1, speed_left := 123, speed_right := 7
    battery_left := 0, battery_right := 0, intensity := 0 }

/-- A Speed command with commanded speeds 3 and 3. -/
def cmdSpeed33 : NeoData :=
  { show_ := 1, speed_left := 3, speed_right := 3
    battery_left := 0, battery_right := 0, intensity := 0 }

/-- A Rainbow command. -/
def cmdRainbow : NeoData :=
  { show_ := 3, speed_left := 0, speed_right := 0
    battery_left := 0, battery_right := 0, intensity := 0 }

/-- A Battery command at half charge on both gauges. -/
def cmdBattery : NeoData :=
  { show_ := 2, speed_left := 0, speed_right := 0
    battery_left := 1/2, battery_right := 1/2, intensity := 0 }

/-- A Stop command. -/
def cmdStop : NeoData :=
  { show_ := 4, speed_left := 0, speed_right := 0
    battery_left := 0, battery_right := 0, intensity := 0 }

/-- Claim C2: `colorwheel` implements the spec's three-arc formula. -/
theorem colorwheel_matches_spec (pos : ℤ) : colorwheel pos = specColorwheel pos := by
  unfold colorwheel specColorwheel
  by_cases h1 : pos < 0 ∨ pos > 255
  · rw [if_pos h1, if_pos h1]
  · rw [if_neg h1, if_neg h1]
    push_neg at h1
    by_cases h2 : pos < 85
    · rw [if_pos h2, if_pos ⟨h1.1, h2⟩]
      simp only [Prod.mk.injEq]
      push_cast
      and_intros <;> first | trivial | ring
    · rw [if_neg h2, if_neg (by omega : ¬(0 ≤ pos ∧ pos < 85))]
      by_cases h3 : pos < 170
      · rw [if_pos h3, if_pos ⟨by omega, h3⟩]
        simp only [Prod.mk.injEq]
        push_cast
        and_intros <;> first | trivial | ring
      · rw [if_neg h3, if_neg (by omega : ¬(85 ≤ pos ∧ pos < 170))]
        simp only [Prod.mk.injEq]
        push_cast
        and_intros <;> first | trivial | ring

/-- Claim C1 (refuted, code bug): at `battery(0.5, 0.5)` the code renders
pixel 0 (the Left segment's ordinal start) RED, with only 14 green pixels
in the Left segment (at its ordinal end) and 16 in the Right, while the
spec's rendering puts 15 green pixels at each segment's ordinal start;
the buffers differ. -/
theorem battery_renders_red_not_green :
    battery (1/2) (1/2) initBuffer ≠ Except.ok (specBatteryBuf (1/2) (1/2))
    ∧ (battery (1/2) (1/2) initBuffer).toOption.map
        (fun b => (b[0]?, (b.take 30).count GRN, (b.drop 30).count GRN))
      = some (some RED, 14, 16)
    ∧ (specBatteryBuf (1/2) (1/2))[0]? = some GRN
    ∧ ((specBatteryBuf (1/2) (1/2)).take 30).count GRN = 15 := by
  have hL : pyTrunc (((END_LEFT - START_LEFT + 1 : ℤ) : ℚ) * (1/2)) = 15 := by
    have harg : ((END_LEFT - START_LEFT + 1 : ℤ) : ℚ) * (1/2) = 15 := by
      norm_num [START_LEFT, END_LEFT]
    rw [harg]; decide
  have hR : pyTrunc (((END_RIGHT - START_RIGHT + 1 : ℤ) : ℚ) * (1 - 1/2)) = 15 := by
    have harg : ((END_RIGHT - START_RIGHT + 1 : ℤ) : ℚ) * (1 - 1/2) = 15 := by
      norm_num [START_RIGHT, END_RIGHT]
    rw [harg]; decide
  have hS : (⌊(30 : ℚ) * (1/2)⌋ : ℤ) = 15 := by norm_num
  have hS2 : (⌊(30 : ℚ) * (1 - 1/2)⌋ : ℤ) = 15 := by norm_num
  refine ⟨?_, ?_, ?_, ?_⟩
  · simp only [battery, specBatteryBuf, hL, hR, hS, hS2]
    decide
  · simp only [battery, hL, hR]
    decide
  · simp only [specBatteryBuf, hS]
    decide
  · simp only [specBatteryBuf, hS, hS2]
    decide

/-- Helper: the blob position after `N` ticks in closed form. -/
theorem blobLocAfter_closed (init inc : ℚ) (N : ℕ) :
    blobLocAfter init inc N = init + N * inc := by
  induction N with
  | zero => simp [blobLocAfter]
  | succ n ih =>
    simp only [blobLocAfter, ih]
    push_cast
    ring

/-- Claim C3: for the Speed animation started with `speed_left = 5`,
`speed_right = -15`, the tick interval is
`min(INTERVAL, NUMPIXELS/2 · DISTANCE_PIXEL / (|5|+|-15|) / 20)` (here
`3/1600` s), the per-tick increments are `5·t/DISTANCE_PIXEL = 3/8` and
`-(-15)·t/DISTANCE_PIXEL = 9/8`, and after `N` ticks each blob head is
the deterministic function `int((init + N·inc) % segLen) + segStart` of
the parameters and `N`. -/
theorem speed_start_5_neg15_deterministic :
    speedInterval 5 (-15)
      = Except.ok (min INTERVAL ((NUMPIXELS : ℚ) / 2 * DISTANCE_PIXEL / (|(5 : ℚ)| + |(-15 : ℚ)|) / 20))
    ∧ speedInterval 5 (-15) = Except.ok (3/1600)
    ∧ (5 : ℚ) * (3/1600) / DISTANCE_PIXEL = 3/8
    ∧ -(-15 : ℚ) * (3/1600) / DISTANCE_PIXEL = 9/8
    ∧ speed_start_setup initNeoState 5 (-15)
      = Except.ok { initNeoState with
          blob_location_left := (START_LEFT : ℚ)
          blob_location_right := (END_RIGHT : ℚ)
          interval := 3/1600
          blob_location_left_inc := 3/8
          blob_location_right_inc := 9/8
          color_left := colorwheel 85
          color_right := colorwheel 255 }
    ∧ (∀ N : ℕ, blobHead (blobLocAfter (START_LEFT : ℚ) (3/8) N) LEFT_LENGTH START_LEFT
        = pyTrunc (pymod ((START_LEFT : ℚ) + N * (3/8)) (LEFT_LENGTH : ℚ)) + START_LEFT)
    ∧ (∀ N : ℕ, blobHead (blobLocAfter (END_RIGHT : ℚ) (9/8) N) RIGHT_LENGTH START_RIGHT
        = pyTrunc (pymod ((END_RIGHT : ℚ) + N * (9/8)) (RIGHT_LENGTH : ℚ)) + START_RIGHT) := by
  have hiv : speedInterval 5 (-15) = Except.ok (3/1600) := by
    rw [speedInterval]
    rw [if_neg (by norm_num)]
    have h1 : (NUMPIXELS : ℚ) / 2 * DISTANCE_PIXEL / (|(5:ℚ)| + |(-15 : ℚ)|) / 2 / 10 = 3/1600 := by
      norm_num [NUMPIXELS, DISTANCE_PIXEL]
    rw [h1]
    dsimp only
    rw [if_neg (by norm_num [INTERVAL])]
  refine ⟨?_, hiv, by norm_num [DISTANCE_PIXEL], by norm_num [DISTANCE_PIXEL], ?_, ?_, ?_⟩
  · rw [hiv]
    have : min INTERVAL ((NUMPIXELS : ℚ) / 2 * DISTANCE_PIXEL / (|(5 : ℚ)| + |(-15 : ℚ)|) / 20)
        = 3/1600 := by
      norm_num [INTERVAL, NUMPIXELS, DISTANCE_PIXEL]
    rw [this]
  · rw [speed_start_setup, hiv]
    simp only [Except.bind]
    have hcl : pyTrunc (|(5 : ℚ)| / MAXSPEED * 255) = 85 := by
      have : |(5 : ℚ)| / MAXSPEED * 255 = 85 := by norm_num [MAXSPEED]
      rw [this]; decide
    have hcr : pyTrunc (|(-15 : ℚ)| / MAXSPEED * 255) = 255 := by
      have : |(-15 : ℚ)| / MAXSPEED * 255 = 255 := by norm_num [MAXSPEED]
      rw [this]; decide
    rw [hcl, hcr]
    have hl : (5 : ℚ) * (3/1600) / DISTANCE_PIXEL = 3/8 := by norm_num [DISTANCE_PIXEL]
    have hr : -(-15 : ℚ) * (3/1600) / DISTANCE_PIXEL = 9/8 := by norm_num [DISTANCE_PIXEL]
    rw [hl, hr]
  · intro N
    rw [blobHead, blobLocAfter_closed]
  · intro N
    rw [blobHead, blobLocAfter_closed]

/-- Claim C9: a Speed command with both speeds zero makes the interval
computation of `speed_start` and `speed_update` divide by zero, so both
fail with ZeroDivisionError. -/
theorem speed_zero_speeds_zero_division :
    speedInterval 0 0 = Except.error PyErr.zeroDivisionError
    ∧ speed_update initNeoState 0 0 = Except.error PyErr.zeroDivisionError
    ∧ speed_start_setup initNeoState 0 0 = Except.error PyErr.zeroDivisionError := by
  have h : speedInterval 0 0 = Except.error PyErr.zeroDivisionError := by
    rw [speedInterval, if_pos (by norm_num)]
  exact ⟨h, by rw [speed_update, h]; rfl, by rw [speed_start_setup, h]; rfl⟩

/-- Helper: an in-range pixel write succeeds. -/
theorem setPixelE_ok (bf : Buffer) (i : ℤ) (c : RGBW) (h : 0 ≤ i ∧ i.toNat < bf.length) :
    setPixelE bf i c = Except.ok (bf.set i.toNat c) := by
  rw [setPixelE, if_pos h]

/-- Helper: a monadic fold of in-range pixel writes never fails and equals
the corresponding pure fold. -/
theorem foldlM_setPixelE (g : ℤ → RGBW) :
    ∀ (l : List ℤ) (buf : Buffer), (∀ i ∈ l, 0 ≤ i ∧ i.toNat < buf.length) →
      l.foldlM (fun bf p => setPixelE bf p (g p)) buf
        = Except.ok (l.foldl (fun bf p => bf.set p.toNat (g p)) buf)
  | [], _, _ => rfl
  | p :: t, buf, h => by
    rw [List.foldlM_cons, setPixelE_ok buf p (g p) (h p (by simp))]
    show t.foldlM (fun bf q => setPixelE bf q (g q)) (buf.set p.toNat (g p)) = _
    rw [foldlM_setPixelE g t (buf.set p.toNat (g p))
        (by intro i hi; simpa using h i (by simp [hi]))]
    rfl

/-- Helper: membership in a Python integer range. -/
theorem mem_pyRange (a b p : ℤ) : p ∈ pyRange a b ↔ a ≤ p ∧ p < b := by
  simp only [pyRange, List.mem_map, List.mem_range]
  constructor
  · rintro ⟨k, hk, rfl⟩
    omega
  · rintro ⟨h1, h2⟩
    exact ⟨(p - a).toNat, by omega, by omega⟩

/-- Helper: a fold of pixel writes preserves the buffer length. -/
theorem foldl_setg_length (g : ℤ → RGBW) (l : List ℤ) :
    ∀ buf : Buffer, (l.foldl (fun bf p => bf.set p.toNat (g p)) buf).length = buf.length := by
  induction l with
  | nil => intro buf; rfl
  | cons q t ih =>
    intro buf
    rw [List.foldl_cons, ih]
    simp

/-- Helper: a fold of pixel writes leaves untouched indices unchanged. -/
theorem foldl_setg_getElem_notMem (g : ℤ → RGBW) (l : List ℤ) (k : ℕ)
    (hk : ∀ p ∈ l, p.toNat ≠ k) :
    ∀ buf : Buffer, (l.foldl (fun bf p => bf.set p.toNat (g p)) buf)[k]? = buf[k]? := by
  induction l with
  | nil => intro buf; rfl
  | cons q t ih =>
    intro buf
    rw [List.foldl_cons, ih (fun p hp => hk p (List.mem_cons_of_mem _ hp))]
    exact List.getElem?_set_ne (hk q (List.mem_cons_self _ _))

/-- Helper: a fold of pixel writes stores the written value at a written
index, provided every write to that index stores the same value. -/
theorem foldl_setg_getElem_mem (g : ℤ → RGBW) :
    ∀ (l : List ℤ) (buf : Buffer) (p : ℤ) (k : ℕ), k < buf.length → p ∈ l → p.toNat = k →
      (∀ q ∈ l, q.toNat = k → g q = g p) →
      (l.foldl (fun bf p => bf.set p.toNat (g p)) buf)[k]? = some (g p) := by
  intro l
  induction l with
  | nil => intro buf p k _ hp; exact absurd hp (List.not_mem_nil p)
  | cons q t ih =>
    intro buf p k hk hp hpk huniq
    rw [List.foldl_cons]
    by_cases hqt : ∃ r ∈ t, r.toNat = k
    · obtain ⟨r, hr, hrk⟩ := hqt
      have hval : g r = g p := huniq r (List.mem_cons_of_mem _ hr) hrk
      have := ih (buf.set q.toNat (g q)) r k (by simpa using hk) hr hrk
        (fun s hs hsk => (huniq s (List.mem_cons_of_mem _ hs) hsk).trans hval.symm)
      rw [this, hval]
    · push_neg at hqt
      rw [foldl_setg_getElem_notMem g t k hqt]
      have hpq : p = q := by
        rcases List.mem_cons.mp hp with h | h
        · exact h
        · exact absurd hpk (hqt p h)
      subst hpq
      rw [hpk]
      exact List.getElem?_set_self hk

/-- Helper: filling both segments of the 60-pixel buffer with an equal
white level writes that level everywhere. -/
theorem humFillE_initBuffer (v : ℚ) :
    humFillE v initBuffer = Except.ok (List.replicate 60 (v, v, v, 0)) := by
  have hfold : humIndexList.foldl (fun bf p => bf.set p.toNat ((v, v, v, 0) : RGBW)) initBuffer
      = List.replicate 60 (v, v, v, 0) := by
    apply List.ext_getElem?
    intro k
    by_cases hk : k < 60
    · have h := foldl_setg_getElem_mem (fun _ => ((v, v, v, 0) : RGBW)) humIndexList initBuffer
        (k : ℤ) k (by simpa [initBuffer] using hk)
        (by
          simp only [humIndexList, left_list, right_list, List.mem_append, List.mem_reverse,
            mem_pyRange, START_LEFT, END_LEFT, START_RIGHT, END_RIGHT]
          omega)
        (by simp) (fun _ _ _ => rfl)
      have h2 : (List.replicate 60 ((v, v, v, 0) : RGBW))[k]? = some (v, v, v, 0) := by
        rw [List.getElem?_replicate, if_pos hk]
      exact h.trans h2.symm
    · have h := foldl_setg_getElem_notMem (fun _ => ((v, v, v, 0) : RGBW)) humIndexList k
        (by
          intro p hp
          simp only [humIndexList, left_list, right_list, List.mem_append, List.mem_reverse,
            mem_pyRange, START_LEFT, END_LEFT, START_RIGHT, END_RIGHT] at hp
          omega) initBuffer
      have h2 : (initBuffer : Buffer)[k]? = none := by
        rw [initBuffer, List.getElem?_replicate, if_neg hk]
      have h3 : (List.replicate 60 ((v, v, v, 0) : RGBW))[k]? = none := by
        rw [List.getElem?_replicate, if_neg hk]
      exact (h.trans h2).trans h3.symm
  rw [humFillE, foldlM_setPixelE (fun _ => (v, v, v, 0)) humIndexList initBuffer (by decide), hfold]

/-- Claim C8 (code bug): the first Hum tick from the initial intensity
(0.75, the upper bound) steps above the bound and hits the undefined
variable `INTENSITYINC`, raising NameError instead of flipping the
direction; a tick that stays inside the band renders every pixel at the
equal white level `(I, I, I, 0)`. -/
theorem hum_tick_nameError :
    humTick (3/4) (3/4) initBuffer = Except.error PyErr.nameError
    ∧ humTick (3/4) (3/5) initBuffer
      = Except.ok (489/800, List.replicate 60 (489/800, 489/800, 489/800, 0)) := by
  constructor
  · rw [humTick]
    try dsimp only
    rw [if_pos]
    left
    norm_num [HUMINTENFRAC]
  · have hI : (3 : ℚ)/5 + ((3 : ℚ)/4 - (3 : ℚ)/4 * (1 - HUMINTENFRAC)) / 20 = 489/800 := by
      norm_num [HUMINTENFRAC]
    rw [humTick]
    try dsimp only
    rw [hI]
    rw [if_neg (by norm_num [HUMINTENFRAC])]
    rw [humFillE_initBuffer]
    rfl

/-- Helper: binding a successful `Except` applies the continuation. -/
theorem bind_okE {ε α β : Type} (a : α) (f : α → Except ε β) :
    (Except.ok a : Except ε α).bind f = f a := rfl

/-- Helper: observing a successful `Except` through `toOption.bind`. -/
theorem toOption_bind_ok {ε α β : Type} (a : α) (f : α → Option β) :
    ((Except.ok a : Except ε α).toOption).bind f = f a := rfl

/-- Helper: observing a successful `Except` through `toOption.map`. -/
theorem toOption_map_ok {ε α β : Type} (a : α) (f : α → β) :
    ((Except.ok a : Except ε α).toOption).map f = some (f a) := rfl

/-- Helper: masking with 255 is reduction modulo 256. -/
theorem and255_eq_mod (n : ℕ) : n &&& 255 = n % 256 := by
  simpa using Nat.and_pow_two_sub_one_eq_mod n 8

/-- Helper: the hue-phase step equals increment modulo 256 on [0, 255]. -/
theorem rainbowStep_eq_mod (color : ℕ) (hc : color ≤ 255) :
    rainbowStep color = (color + 1) % 256 := by
  rw [rainbowStep]
  by_cases h : color + 1 > 255
  · have : color = 255 := by omega
    subst this
    simp
  · rw [if_neg h, Nat.mod_eq_of_lt (by omega)]

/-- Claim C7: a Rainbow tick advances the hue phase to `(phase+1) mod 256`
and paints the pixel at ordinal `i` of either segment (absolute index `i`
on the left, `59 - i` on the right) with
`colorwheel((i·256/30 + phase'·5) mod 256)`; the stop render is all black. -/
theorem rainbow_tick_formula (color i : ℕ) (buf : Buffer)
    (hc : color ≤ 255) (hi : i < 30) (hb : buf.length = 60) :
    (rainbowTick color buf).toOption.map Prod.fst = some ((color + 1) % 256)
    ∧ (rainbowTick color buf).toOption.bind (fun r => r.2[i]?)
      = some (colorwheel (((i * 256 / 30 + ((color + 1) % 256) * 5) % 256 : ℕ) : ℤ))
    ∧ (rainbowTick color buf).toOption.bind (fun r => r.2[59 - i]?)
      = some (colorwheel (((i * 256 / 30 + ((color + 1) % 256) * 5) % 256 : ℕ) : ℤ))
    ∧ rainbowStopRender.count BLK = 60 := by
  have hmemL : ∀ p ∈ left_list, 0 ≤ p ∧ p.toNat < buf.length := by
    intro p hp
    rw [hb]
    simp only [left_list, mem_pyRange, START_LEFT, END_LEFT] at hp
    omega
  have h1 := foldlM_setPixelE (rainbowPixelLeft (rainbowStep color)) left_list buf hmemL
  have hlen1 : (left_list.foldl
      (fun bf p => bf.set p.toNat (rainbowPixelLeft (rainbowStep color) p)) buf).length = 60 := by
    rw [foldl_setg_length, hb]
  have hmemR : ∀ p ∈ right_list, 0 ≤ p ∧ p.toNat < (left_list.foldl
      (fun bf p => bf.set p.toNat (rainbowPixelLeft (rainbowStep color) p)) buf).length := by
    intro p hp
    rw [hlen1]
    simp only [right_list, List.mem_reverse, mem_pyRange, START_RIGHT, END_RIGHT] at hp
    omega
  have h2 := foldlM_setPixelE (rainbowPixelRight (rainbowStep color)) right_list _ hmemR
  have hrt : rainbowTick color buf = Except.ok (rainbowStep color,
      right_list.foldl (fun bf p => bf.set p.toNat (rainbowPixelRight (rainbowStep color) p))
        (left_list.foldl
          (fun bf p => bf.set p.toNat (rainbowPixelLeft (rainbowStep color) p)) buf)) := by
    rw [rainbowTick]
    rw [h1, bind_okE]
    rw [h2, bind_okE]
  refine ⟨?_, ?_, ?_, by decide⟩
  · rw [hrt, toOption_map_ok, rainbowStep_eq_mod color hc]
  · rw [hrt, toOption_bind_ok]
    dsimp only
    have hnotR : ∀ p ∈ right_list, p.toNat ≠ i := by
      intro p hp
      simp only [right_list, List.mem_reverse, mem_pyRange, START_RIGHT, END_RIGHT] at hp
      omega
    rw [foldl_setg_getElem_notMem (rainbowPixelRight (rainbowStep color)) right_list i hnotR]
    have huniq : ∀ q ∈ left_list, q.toNat = i →
        rainbowPixelLeft (rainbowStep color) q = rainbowPixelLeft (rainbowStep color) (i : ℤ) := by
      intro q hq hqi
      simp only [left_list, mem_pyRange, START_LEFT, END_LEFT] at hq
      have : q = (i : ℤ) := by omega
      rw [this]
    have hm := foldl_setg_getElem_mem (rainbowPixelLeft (rainbowStep color)) left_list buf
      (i : ℤ) i (by omega) (by simp only [left_list, mem_pyRange, START_LEFT, END_LEFT]; omega)
      (by simp) huniq
    rw [hm]
    rw [rainbowPixelLeft, rainbowStep_eq_mod color hc]
    have harg : ((i : ℤ) - START_LEFT).toNat = i := by
      simp only [START_LEFT]
      omega
    rw [harg, show LEFT_LENGTH.toNat = 30 from rfl, and255_eq_mod]
  · rw [hrt, toOption_bind_ok]
    dsimp only
    have huniq : ∀ q ∈ right_list, q.toNat = 59 - i →
        rainbowPixelRight (rainbowStep color) q
          = rainbowPixelRight (rainbowStep color) ((59 - i : ℕ) : ℤ) := by
      intro q hq hqi
      simp only [right_list, List.mem_reverse, mem_pyRange, START_RIGHT, END_RIGHT] at hq
      have : q = ((59 - i : ℕ) : ℤ) := by omega
      rw [this]
    have hm := foldl_setg_getElem_mem (rainbowPixelRight (rainbowStep color)) right_list
      (left_list.foldl
        (fun bf p => bf.set p.toNat (rainbowPixelLeft (rainbowStep color) p)) buf)
      ((59 - i : ℕ) : ℤ) (59 - i) (by omega)
      (by simp only [right_list, List.mem_reverse, mem_pyRange, START_RIGHT, END_RIGHT]; omega)
      (by simp) huniq
    rw [hm]
    rw [rainbowPixelRight, rainbowStep_eq_mod color hc]
    have harg : (END_RIGHT - ((59 - i : ℕ) : ℤ)).toNat = i := by
      simp only [END_RIGHT]
      omega
    rw [harg, show RIGHT_LENGTH.toNat = 30 from rfl, and255_eq_mod]

/-- Witness for `rainbow_tick_formula` at phase 0, ordinal 0, on the
initial buffer. -/
theorem rainbow_tick_formula_witness :
    (0 : ℕ) ≤ 255 ∧ (0 : ℕ) < 30 ∧ initBuffer.length = 60
    ∧ ((rainbowTick 0 initBuffer).toOption.map Prod.fst = some ((0 + 1) % 256)
      ∧ (rainbowTick 0 initBuffer).toOption.bind (fun r => r.2[0]?)
        = some (colorwheel (((0 * 256 / 30 + ((0 + 1) % 256) * 5) % 256 : ℕ) : ℤ))
      ∧ (rainbowTick 0 initBuffer).toOption.bind (fun r => r.2[59 - 0]?)
        = some (colorwheel (((0 * 256 / 30 + ((0 + 1) % 256) * 5) % 256 : ℕ) : ℤ))
      ∧ rainbowStopRender.count BLK = 60) :=
  ⟨by decide, by decide, by decide,
    rainbow_tick_formula 0 0 initBuffer (by decide) (by decide) (by decide)⟩

/-- Helper: the dispatch collapses — Rainbow commands reach their branch,
every other command hits the missing `neoshow["rainbow_off"]` key. -/
theorem mainStep_eq (st : MainState) (c : NeoData) :
    mainStep st c
      = if c.show_ = 3 then Except.ok (rainbowBranch st) else Except.error PyErr.keyError := rfl

/-- Helper: the tick interval for speeds 5 and -15. -/
theorem speedInterval_5_neg15 : speedInterval 5 (-15) = Except.ok (3/1600) := by
  rw [speedInterval]
  rw [if_neg (by norm_num)]
  have h1 : (NUMPIXELS : ℚ) / 2 * DISTANCE_PIXEL / (|(5:ℚ)| + |(-15 : ℚ)|) / 2 / 10 = 3/1600 := by
    norm_num [NUMPIXELS, DISTANCE_PIXEL]
  rw [h1]
  dsimp only
  rw [if_neg (by norm_num [INTERVAL])]

/-- Helper: the speed-to-hue conversion at 5 m/s. -/
theorem pyTrunc_speed5 : pyTrunc (|(5 : ℚ)| / MAXSPEED * 255) = 85 := by
  have h : |(5 : ℚ)| / MAXSPEED * 255 = 85 := by norm_num [MAXSPEED]
  rw [h]; decide

/-- Helper: the speed-to-hue conversion at -15 m/s. -/
theorem pyTrunc_speedNeg15 : pyTrunc (|(-15 : ℚ)| / MAXSPEED * 255) = 255 := by
  have h : |(-15 : ℚ)| / MAXSPEED * 255 = 255 := by norm_num [MAXSPEED]
  rw [h]; decide

/-- Claim C4 (code bug): a second Speed command while Speed is active
crashes the dispatch with KeyError (the `elif` chain reads the missing
`neoshow["rainbow_off"]` before the Speed branch), so `speed_update` is
never invoked; `speed_update` itself (lines 223-229) recomputes only the
interval, the two increments and the two colors, leaving both blob
positions — 7 and 42 here — and every other field unchanged. -/
theorem speed_update_keyError_preserves_blobs :
    mainStep speedRunning cmdSpeed33 = Except.error PyErr.keyError
    ∧ speed_update exampleNeo 3 3
      = Except.ok { exampleNeo with
          interval := 1/160
          blob_location_left_inc := 3/4
          blob_location_right_inc := -(3/4)
          color_left := colorwheel 51
          color_right := colorwheel 51 }
    ∧ (speed_update exampleNeo 3 3).toOption.map
        (fun n => (n.blob_location_left, n.blob_location_right)) = some (7, 42) := by
  have hiv : speedInterval 3 3 = Except.ok (1/160) := by
    rw [speedInterval]
    rw [if_neg (by norm_num)]
    have h1 : (NUMPIXELS : ℚ) / 2 * DISTANCE_PIXEL / (|(3:ℚ)| + |(3 : ℚ)|) / 2 / 10 = 1/160 := by
      norm_num [NUMPIXELS, DISTANCE_PIXEL]
    rw [h1]
    dsimp only
    rw [if_neg (by norm_num [INTERVAL])]
  have hc3 : pyTrunc (|(3 : ℚ)| / MAXSPEED * 255) = 51 := by
    have h : |(3 : ℚ)| / MAXSPEED * 255 = 51 := by norm_num [MAXSPEED]
    rw [h]; decide
  have hl : (3 : ℚ) * (1/160) / DISTANCE_PIXEL = 3/4 := by norm_num [DISTANCE_PIXEL]
  have hr : -(3 : ℚ) * (1/160) / DISTANCE_PIXEL = -(3/4) := by norm_num [DISTANCE_PIXEL]
  refine ⟨by decide, ?_, ?_⟩
  · rw [speed_update, hiv, bind_okE, hc3, hl, hr]
  · rw [speed_update, hiv, bind_okE]
    rfl

/-- Claim C5 counterexample: in the state where Rainbow is running, a
Speed command is not "rejected with a log message and no state change" —
the dispatch raises KeyError on the missing `neoshow["rainbow_off"]`. -/
theorem speed_during_rainbow_not_logged_rejection :
    mainStep rainbowRunning cmdSpeed99 = Except.error PyErr.keyError
    ∧ mainStep rainbowRunning cmdSpeed99
      ≠ Except.ok { rainbowRunning with log := rainbowRunning.log + 1 } := by
  exact ⟨by decide, by decide⟩

/-- Claim C5 as amended: in every reachable controller state at most one
of the three animations is active; a Rainbow command while an animation
is active is rejected with a log message and no other state change; and
every command other than Rainbow — Speed and Hum starts, all static
displays, everything else — raises KeyError at the missing
`neoshow["rainbow_off"]` lookup, so static displays are never shown at
all (hence never shown while an animation is active) and no other
command is ever "rejected with a log". -/
theorem mode_exclusivity_amended (s1 s2 s3 : MainState) (c2 c3 : NeoData)
    (h1 : ReachableMain s1)
    (h2s : c2.show_ = 3)
    (h2a : (s2.speedTask || s2.rainbowTask || s2.humTask) = true)
    (h3 : c3.show_ ≠ 3) :
    atMostOneActive s1 = true
    ∧ mainStep s2 c2 = Except.ok { s2 with log := s2.log + 1 }
    ∧ mainStep s3 c3 = Except.error PyErr.keyError := by
  refine ⟨?_, ?_, ?_⟩
  · induction h1 with
    | init => decide
    | step hr hstep ih =>
      rename_i s s' c
      rw [mainStep_eq] at hstep
      by_cases hc : c.show_ = 3
      · rw [if_pos hc] at hstep
        cases hstep
        rw [rainbowBranch]
        by_cases hna : noneActive s = true
        · rw [if_pos hna]
          simp only [noneActive, Bool.and_eq_true, Bool.not_eq_true'] at hna
          simp [atMostOneActive, hna.1.1, hna.1.2, hna.2]
        · rw [if_neg hna]
          simpa [atMostOneActive] using ih
      · rw [if_neg hc] at hstep
        exact absurd hstep (by simp)
  · have hna : noneActive s2 = false := by
      rw [noneActive]
      revert h2a
      cases s2.speedTask <;> cases s2.rainbowTask <;> cases s2.humTask <;> decide
    rw [mainStep_eq, if_pos h2s, rainbowBranch, if_neg (by rw [hna]; decide)]
  · rw [mainStep_eq, if_neg h3]

/-- Witness for `mode_exclusivity_amended`: the initial state is
reachable; Rainbow during Rainbow is log-rejected; Battery from idle
raises KeyError. -/
theorem mode_exclusivity_amended_witness :
    ReachableMain initMain
    ∧ cmdRainbow.show_ = 3
    ∧ (rainbowRunning.speedTask || rainbowRunning.rainbowTask || rainbowRunning.humTask) = true
    ∧ cmdBattery.show_ ≠ 3
    ∧ (atMostOneActive initMain = true
      ∧ mainStep rainbowRunning cmdRainbow
        = Except.ok { rainbowRunning with log := rainbowRunning.log + 1 }
      ∧ mainStep initMain cmdBattery = Except.error PyErr.keyError) :=
  ⟨ReachableMain.init, by decide, by decide, by decide,
    mode_exclusivity_amended initMain rainbowRunning initMain cmdRainbow cmdBattery
      ReachableMain.init (by decide) (by decide) (by decide)⟩

/-- Claim C6 counterexample: a Stop command while Hum is mid-flight is
never processed by the stop branch — the dispatch raises KeyError first —
and even the stop branch's own effect would not end all-black: after
`main`'s clear, the cancelled Hum task's stop render paints full white
last, so the terminal buffer is white, not black. -/
theorem stop_during_hum_keyError_white :
    mainStep humRunning cmdStop = Except.error PyErr.keyError
    ∧ (settleTasks (stopBranch humRunning)).buffer ≠ initBuffer
    ∧ (settleTasks (stopBranch humRunning)).buffer = whiteBuffer := by
  exact ⟨by decide, by decide, by decide⟩

/-- Claim C6 as amended: a Stop command actually raises KeyError in the
dispatch and performs no transition; the stop branch itself (lines
529-533), as written, sets all four stop events and clears the buffer to
black, each running animation then performs its stop render after the
clear — so the terminal buffer is full white exactly when Hum was
mid-flight, black otherwise — and once the events are set the command
worker accepts nothing further. -/
theorem stop_branch_amended (st : MainState) :
    mainStep st cmdStop = Except.error PyErr.keyError
    ∧ (stopBranch st).speedStopEvent = true
    ∧ (stopBranch st).rainbowStopEvent = true
    ∧ (stopBranch st).humStopEvent = true
    ∧ (stopBranch st).zmqStopEvent = true
    ∧ (stopBranch st).buffer = initBuffer
    ∧ (settleTasks (stopBranch st)).buffer = (if st.humTask then whiteBuffer else initBuffer)
    ∧ zmqAccepting (settleTasks (stopBranch st)) = false := by
  refine ⟨?_, rfl, rfl, rfl, rfl, rfl, ?_, ?_⟩
  · rw [mainStep_eq, if_neg (by decide : ¬cmdStop.show_ = 3)]
  · cases hsp : st.speedTask <;> cases hrb : st.rainbowTask <;> cases hhm : st.humTask <;>
      simp [settleTasks, stopBranch, hsp, hrb, hhm]
  · cases hsp : st.speedTask <;> cases hrb : st.rainbowTask <;> cases hhm : st.humTask <;>
      simp [settleTasks, stopBranch, zmqAccepting, hsp, hrb, hhm]

/-- Claim C10: starting Speed from the no-animation state ignores the
command's speed fields — any two Speed commands start identically, with
the parameters computed from the hard-coded defaults 5.0 and -15.0
(interval 3/1600 s, increments 3/8 and 9/8, hues 85 and 255) — while a
Speed command during a running Speed animation forwards its speeds to
`speed_update`. -/
theorem speed_start_ignores_commanded_speeds (st st2 : MainState) (c c2 d : NeoData)
    (h : noneActive st = true)
    (h2a : st2.speedTask = true) (h2b : st2.rainbowTask = false) (h2c : st2.humTask = false) :
    speedBranch st c = speedBranch st c2
    ∧ speedBranch st c
      = Except.ok { st with
          speedStopEvent := false
          speedTask := true
          neo := { st.neo with
            blob_location_left := (START_LEFT : ℚ)
            blob_location_right := (END_RIGHT : ℚ)
            interval := 3/1600
            blob_location_left_inc := 3/8
            blob_location_right_inc := 9/8
            color_left := colorwheel 85
            color_right := colorwheel 255 } }
    ∧ speedBranch st2 d
      = (speed_update st2.neo d.speed_left d.speed_right).bind (fun n =>
          Except.ok { st2 with neo := n }) := by
  have hstart : speedBranch st c
      = Except.ok { st with
          speedStopEvent := false
          speedTask := true
          neo := { st.neo with
            blob_location_left := (START_LEFT : ℚ)
            blob_location_right := (END_RIGHT : ℚ)
            interval := 3/1600
            blob_location_left_inc := 3/8
            blob_location_right_inc := 9/8
            color_left := colorwheel 85
            color_right := colorwheel 255 } } := by
    rw [speedBranch, if_pos h, speed_start_setup, speedInterval_5_neg15, bind_okE,
      pyTrunc_speed5, pyTrunc_speedNeg15]
    rw [show (5 : ℚ) * (3/1600) / DISTANCE_PIXEL = 3/8 from by norm_num [DISTANCE_PIXEL]]
    rw [show -(-15 : ℚ) * (3/1600) / DISTANCE_PIXEL = 9/8 from by norm_num [DISTANCE_PIXEL]]
    rw [bind_okE]
  have hstart2 : speedBranch st c2
      = Except.ok { st with
          speedStopEvent := false
          speedTask := true
          neo := { st.neo with
            blob_location_left := (START_LEFT : ℚ)
            blob_location_right := (END_RIGHT : ℚ)
            interval := 3/1600
            blob_location_left_inc := 3/8
            blob_location_right_inc := 9/8
            color_left := colorwheel 85
            color_right := colorwheel 255 } } := by
    rw [speedBranch, if_pos h, speed_start_setup, speedInterval_5_neg15, bind_okE,
      pyTrunc_speed5, pyTrunc_speedNeg15]
    rw [show (5 : ℚ) * (3/1600) / DISTANCE_PIXEL = 3/8 from by norm_num [DISTANCE_PIXEL]]
    rw [show -(-15 : ℚ) * (3/1600) / DISTANCE_PIXEL = 9/8 from by norm_num [DISTANCE_PIXEL]]
    rw [bind_okE]
  refine ⟨hstart.trans hstart2.symm, hstart, ?_⟩
  have hno : ¬ noneActive st2 = true := by
    rw [noneActive, h2a]
    simp
  rw [speedBranch, if_neg hno, if_pos (by rw [h2a, h2b, h2c]; rfl)]

/-- Witness for `speed_start_ignores_commanded_speeds`: two Speed
commands with different commanded speeds from the idle state, and one
while Speed runs. -/
theorem speed_start_ignores_commanded_speeds_witness :
    noneActive initMain = true
    ∧ speedRunning.speedTask = true
    ∧ speedRunning.rainbowTask = false
    ∧ speedRunning.humTask = false
    ∧ (speedBranch initMain cmdSpeed99 = speedBranch initMain cmdSpeed123
      ∧ speedBranch initMain cmdSpeed99
        = Except.ok { initMain with
            speedStopEvent := false
            speedTask := true
            neo := { initMain.neo with
              blob_location_left := (START_LEFT : ℚ)
              blob_location_right := (END_RIGHT : ℚ)
              interval := 3/1600
              blob_location_left_inc := 3/8
              blob_location_right_inc := 9/8
              color_left := colorwheel 85
              color_right := colorwheel 255 } }
      ∧ speedBranch speedRunning cmdSpeed33
        = (speed_update speedRunning.neo cmdSpeed33.speed_left cmdSpeed33.speed_right).bind
            (fun n => Except.ok { speedRunning with neo := n })) :=
  ⟨by decide, by decide, by decide, by decide,
    speed_start_ignores_commanded_speeds initMain speedRunning cmdSpeed99 cmdSpeed123 cmdSpeed33
      (by decide) (by decide) (by decide) (by decide)⟩
